import Mathlib

/-!
A shallow embedding of the sandbox construction/cleanup engine of the
`rfs_tester` crate (`src/rfs/fs_tester.rs`, `src/rfs/fs_tester_error.rs`,
`src/rfs/config/*`), together with theorems about the engine's behaviour.

Modelling conventions:
* Filesystem paths are `String`s; `PathBuf::join` is modelled by `pathJoin`
  (inserting a `/` separator), which is faithful for the relative entry
  names the configuration model uses.
* Filesystem state visible to the content materializer is an association
  list from paths to byte lists; machine bytes (`u8`) are `Nat` payloads
  that the engine never does arithmetic on.
* Filesystem queries performed by `FsTester::new` and by the `Drop`
  handler (`Path::is_dir`, `std::fs::metadata`, `std::fs::canonicalize`,
  `std::fs::remove_dir_all`) are represented by an oracle record
  `FsOracle`; an `io::Error` is identified by its numeric payload.
* The asynchronous build phase invoked by `FsTester::new`
  (`build_directory_with_content` / `clone_directory` run on a fresh tokio
  runtime) is passed to the model of `new` as a function parameter
  returning the build's result together with the list of filesystem
  mutations it performed; the internal pieces of that phase
  (`gen_dir_path`, `create_file`, `create_link`, the handle-await loop)
  are modelled individually below.
* Randomness (`rand::rng().random::<u64>()`) is modelled by passing the
  drawn code as an explicit argument.
-/

namespace RfsTester

/-- `FileContent` from `src/rfs/file_content.rs`: the four content sources
of a file entry (`InlineBytes(Vec<u8>)`, `InlineText(String)`,
`OriginalFile(String)`, `Empty`). -/
inductive FileContent where
  | inlineBytes (data : List Nat)
  | inlineText (text : String)
  | originalFile (path : String)
  | empty
deriving DecidableEq

/-- `FileConf` from `src/rfs/config/file_conf.rs`. -/
structure FileConf where
  name : String
  content : FileContent
deriving DecidableEq

/-- `LinkConf` from `src/rfs/config/link_conf.rs`. -/
structure LinkConf where
  name : String
  target : String
deriving DecidableEq

/-- `CloneDirectoryConf` from `src/rfs/config/clone_directory_conf.rs`. -/
structure CloneDirectoryConf where
  name : String
  source : String
deriving DecidableEq

/-- `ConfigEntry` from `src/rfs/config/config_entry.rs`.  The fields of
`DirectoryConf` (`src/rfs/config/directory_conf.rs`) are inlined into the
`directory` constructor because Lean does not allow a structure to be
mutually recursive with an inductive type. -/
inductive ConfigEntry where
  | directory (name : String) (content : List ConfigEntry)
  | cloneDirectory (conf : CloneDirectoryConf)
  | file (conf : FileConf)
  | link (conf : LinkConf)

/-- `Configuration` from `src/rfs/config/configuration.rs`: a newtype over
the list of top-level entries (the Rust tuple field `.0` is named
`entries` here). -/
structure Configuration where
  entries : List ConfigEntry

/-- `ErrorCode` from `src/rfs/fs_tester_error.rs`.  The payloads of the
syntax / walkdir / join / acquire variants are irrelevant to the claims
and are dropped; an `io::Error` payload is identified by a numeric
code. -/
inductive ErrorCode where
  | emptyConfig
  | shouldStartFromDirectory
  | linksNotAllowed
  | yamlSyntax
  | jsonSyntax
  | walkDir
  | ioErr (err : Nat)
  | acquireError
  | joinError
deriving DecidableEq

/-- `Category` from `src/rfs/fs_tester_error.rs`. -/
inductive Category where
  | configFormat
  | notAllowedSettings
  | syntax0
  | ioCat
  | multitasking
deriving DecidableEq

/-- `FsTesterError` from `src/rfs/fs_tester_error.rs`: an error code with
source location and the optional created-sandbox path. -/
structure FsTesterError where
  code : ErrorCode
  line : Nat
  column : Nat
  sandbox_dir : Option String
deriving DecidableEq

namespace FsTesterError

/-- `FsTesterError::empty_config`. -/
def empty_config : FsTesterError := ⟨ErrorCode.emptyConfig, 0, 0, none⟩

/-- `FsTesterError::should_start_from_directory`. -/
def should_start_from_directory : FsTesterError :=
  ⟨ErrorCode.shouldStartFromDirectory, 0, 0, none⟩

/-- `FsTesterError::not_allowed_settings`. -/
def not_allowed_settings : FsTesterError := ⟨ErrorCode.linksNotAllowed, 0, 0, none⟩

/-- `FsTesterError::io_error` (also `From<IoError> for FsTesterError`). -/
def io_error (err : Nat) : FsTesterError := ⟨ErrorCode.ioErr err, 0, 0, none⟩

/-- `FsTesterError::set_sandbox_dir`. -/
def set_sandbox_dir (e : FsTesterError) (sd : Option String) : FsTesterError :=
  { e with sandbox_dir := sd }

/-- `FsTesterError::classify` from `src/rfs/fs_tester_error.rs`. -/
def classify (e : FsTesterError) : Category :=
  match e.code with
  | ErrorCode.emptyConfig => Category.configFormat
  | ErrorCode.shouldStartFromDirectory => Category.configFormat
  | ErrorCode.linksNotAllowed => Category.notAllowedSettings
  | ErrorCode.jsonSyntax => Category.syntax0
  | ErrorCode.yamlSyntax => Category.syntax0
  | ErrorCode.ioErr _ => Category.ioCat
  | ErrorCode.walkDir => Category.ioCat
  | ErrorCode.acquireError => Category.multitasking
  | ErrorCode.joinError => Category.multitasking

/-- `FsTesterError::is_io`. -/
def is_io (e : FsTesterError) : Bool := e.classify == Category.ioCat

/-- `FsTesterError::is_config_format`. -/
def is_config_format (e : FsTesterError) : Bool := e.classify == Category.configFormat

end FsTesterError

/-- `Permissions` from `src/rfs/fs_tester.rs`. -/
structure Permissions where
  links_allowed : Bool
deriving DecidableEq

/-- The resolution of the `LINKS_ALLOWED` environment toggle performed at
the top of `FsTester::new` (`src/rfs/fs_tester.rs` line 427):
`env::var(LINKS_ALLOWED_VAR_NAME).unwrap_or_else(|_| "N".to_string()) != "N"`.
An absent variable is `none`. -/
def links_allowed_from_env (v : Option String) : Bool :=
  (v.getD "N") != "N"

/-- `PathBuf::join` for the relative names used by the configuration
model. -/
def pathJoin (dir name : String) : String := dir ++ "/" ++ name

/-- `FsTester::gen_dir_path` (`src/rfs/fs_tester.rs` lines 74-81): for
`level == 0` the destination gets a random-suffix name, otherwise the
configured name verbatim.  The drawn `u64` is the `uniq_code` argument. -/
def gen_dir_path (dir_path : String) (name : String) (level : Nat) (uniq_code : Nat) : String :=
  if level = 0 then
    pathJoin dir_path (name ++ "_" ++ toString uniq_code)
  else
    pathJoin dir_path name

/-- The filesystem queries `FsTester::new` and the `Drop` handler perform,
as an oracle: `Path::is_dir`, `std::fs::metadata(..).is_dir()` (with an
`io::Error` code on failure), `std::fs::canonicalize` (`none` on failure)
and `std::fs::remove_dir_all` (an `io::Error` code on failure). -/
structure FsOracle where
  isDir : String → Bool
  metadataIsDir : String → Except Nat Bool
  canonicalize : String → Option String
  removeDirAll : String → Except Nat Unit

/-- `FsTester::cmp_canonical_paths` (`src/rfs/fs_tester.rs` lines 83-98):
true on literal string equality; otherwise both sides must canonicalize
successfully and agree. -/
def cmp_canonical_paths (fs : FsOracle) (left right : String) : Bool :=
  if left == right then
    true
  else
    match fs.canonicalize left with
    | some left_canonical_path =>
      match fs.canonicalize right with
      | some right_canonical_path => left_canonical_path == right_canonical_path
      | none => false
    | none => false

/-- The filesystem state visible to the content materializer: an
association list from paths to file byte contents (first binding wins on
lookup). -/
abbrev FsState := List (String × List Nat)

/-- Reading a file's bytes (`File::open` + reading): the first binding for
the path, `none` when the path is missing. -/
def lookupFile : FsState → String → Option (List Nat)
  | [], _ => none
  | (q, b) :: rest, p => if q = p then some b else lookupFile rest p

/-- Creating/overwriting a file (`File::create` truncates; writes replace
the contents): prepend a binding, shadowing older ones. -/
def insertFile (fs : FsState) (p : String) (b : List Nat) : FsState :=
  (p, b) :: fs

/-- The UTF-8 bytes of a string, as written by `text.as_bytes()`. -/
def utf8Bytes (s : String) : List Nat :=
  s.toUTF8.toList.map (fun b => b.toNat)

/-- `FsTester::create_file` (`src/rfs/fs_tester.rs` lines 164-183):
`File::create` the destination (truncating), then write the bytes selected
by the content variant; for `OriginalFile` the source is opened after the
destination was created and a missing source is an `io::Error`
(`NotFound`, os error 2).  Returns the new state and the destination
path. -/
def create_file (conf : FileConf) (dir_path : String) (fs : FsState) :
    Except Nat (FsState × String) :=
  let dst_file_name := pathJoin dir_path conf.name
  let fs1 := insertFile fs dst_file_name []
  match conf.content with
  | FileContent.inlineBytes data => Except.ok (insertFile fs1 dst_file_name data, dst_file_name)
  | FileContent.inlineText text =>
    Except.ok (insertFile fs1 dst_file_name (utf8Bytes text), dst_file_name)
  | FileContent.originalFile file_path =>
    match lookupFile fs1 file_path with
    | some bytes => Except.ok (insertFile fs1 dst_file_name bytes, dst_file_name)
    | none => Except.error 2
  | FileContent.empty => Except.ok (fs1, dst_file_name)

/-- The link-identity state used to model hard links: an association list
from paths to inode numbers. -/
abbrev InodeState := List (String × Nat)

/-- Inode lookup for a path. -/
def lookupInode : InodeState → String → Option Nat
  | [], _ => none
  | (q, i) :: rest, p => if q = p then some i else lookupInode rest p

/-- `tokio::fs::hard_link(target, link)`: the link path gets the target's
inode; a missing target is an `io::Error` (os error 2). -/
def hard_link_op (st : InodeState) (target link : String) : Except Nat InodeState :=
  match lookupInode st target with
  | some ino => Except.ok ((link, ino) :: st)
  | none => Except.error 2

/-- `FsTester::create_link` (`src/rfs/fs_tester.rs` lines 186-200): only
when `permissions.links_allowed` holds is a hard link from `conf.target`
to `dir_path/conf.name` created; otherwise
`FsTesterError::not_allowed_settings()` is returned and nothing is
touched. -/
def create_link (conf : LinkConf) (dir_path : String) (permissions : Permissions)
    (st : InodeState) : Except FsTesterError (InodeState × String) :=
  if permissions.links_allowed then
    let link_name := pathJoin dir_path conf.name
    let target_name := conf.target
    match hard_link_op st target_name link_name with
    | Except.ok st1 => Except.ok (st1, link_name)
    | Except.error k => Except.error (FsTesterError.io_error k)
  else
    Except.error FsTesterError.not_allowed_settings

/-- Which way `FsTester::parse_config` dispatches the configuration
text. -/
inductive ParserChoice where
  | json
  | yaml
  | emptyConfigError
deriving DecidableEq

/-- The format dispatch of `FsTester::parse_config`
(`src/rfs/fs_tester.rs` lines 411-420): it matches on
`config_str.chars().next()` — the first character of the text —
dispatching `{`/`[` to serde_json, any other character to serde_yaml, and
`None` (the empty string) to `FsTesterError::empty_config()`. -/
def parse_config_choice (config_str : String) : ParserChoice :=
  match config_str.data.head? with
  | some '{' => ParserChoice.json
  | some '[' => ParserChoice.json
  | some _ => ParserChoice.yaml
  | none => ParserChoice.emptyConfigError

/-- The dispatch rule as the specification words it ("auto-selected by
inspecting the first non-whitespace character"), for comparison with
`parse_config_choice`. -/
def spec_parse_choice (config_str : String) : ParserChoice :=
  match (config_str.data.dropWhile Char.isWhitespace).head? with
  | some '{' => ParserChoice.json
  | some '[' => ParserChoice.json
  | some _ => ParserChoice.yaml
  | none => ParserChoice.emptyConfigError

/-- One scheduled unit of work for a child entry of
`build_directory_with_content` (`src/rfs/fs_tester.rs` lines 251-307):
each child is spawned as its own tokio task before any handle is
awaited. -/
inductive ChildUnit where
  | buildDir (name : String) (content : List ConfigEntry) (level : Nat)
  | cloneDir (conf : CloneDirectoryConf) (level : Nat)
  | fileUnit (conf : FileConf)
  | linkUnit (conf : LinkConf)

/-- The spawn phase of `build_directory_with_content`: the loop over
`directory_conf.content` spawns one task per child entry (directories and
clone-directories recurse at `level + 1`), pushing every handle before the
await loop runs. -/
def spawn_child_units (content : List ConfigEntry) (level : Nat) : List ChildUnit :=
  content.map fun entry =>
    match entry with
    | ConfigEntry.directory name c => ChildUnit.buildDir name c (level + 1)
    | ConfigEntry.cloneDirectory conf => ChildUnit.cloneDir conf (level + 1)
    | ConfigEntry.file conf => ChildUnit.fileUnit conf
    | ConfigEntry.link conf => ChildUnit.linkUnit conf

/-- The error annotation in the await loop of
`build_directory_with_content` (lines 310-315): at `level == 0` a failing
child's error gets the created root path as its `sandbox_dir`. -/
def annotate_at_root (level : Nat) (dst_dir_path : String) (err : FsTesterError) :
    FsTesterError :=
  if level = 0 then err.set_sandbox_dir (some dst_dir_path) else err

/-- The await loop of `build_directory_with_content`
(`src/rfs/fs_tester.rs` lines 309-316): the spawned handles' results are
awaited in spawn order; `?` short-circuits on the first error (annotated
at the root level), so handles after it are not awaited.  Returns the
loop's outcome together with how many handles were awaited. -/
def await_build_handles (level : Nat) (dst_dir_path : String) :
    List (Except FsTesterError String) → Except FsTesterError Unit × Nat
  | [] => (Except.ok (), 0)
  | r :: rest =>
    match r with
    | Except.error e => (Except.error (annotate_at_root level dst_dir_path e), 1)
    | Except.ok _ =>
      let o := await_build_handles level dst_dir_path rest
      (o.1, o.2 + 1)

/-- A filesystem mutation performed by the engine, for stating
"no filesystem artifact is created" and "the path is deleted". -/
inductive FsMutation where
  | createDir (path : String)
  | createFile (path : String)
  | hardLink (target name : String)
  | removeDirAll (path : String)
deriving DecidableEq

/-- The successful result of `FsTester::new`
(`src/rfs/fs_tester.rs` lines 64-67). -/
structure FsTester where
  config : Configuration
  base_dir : String

/-- The type of the abstracted build phase of `FsTester::new`: given the
resolved `links_allowed` flag, the root entry and the base directory, it
returns the result of `runtime.block_on(build_directory_with_content ...)`
or `runtime.block_on(clone_directory ...)` at level 0, together with the
filesystem mutations it performed. -/
def BuildFn := Bool → ConfigEntry → String → Except FsTesterError String × List FsMutation

/-- The root-entry dispatch of `FsTester::new` (lines 457-481): a
`Directory` root runs `build_directory_with_content`, a `CloneDirectory`
root runs `clone_directory`, and any other root kind yields `none`
(`new` then returns `should_start_from_directory`). -/
def root_build (build : BuildFn) (links_allowed : Bool) (root : ConfigEntry)
    (base_dir : String) : Option (Except FsTesterError String × List FsMutation) :=
  match root with
  | ConfigEntry.directory name content =>
    some (build links_allowed (ConfigEntry.directory name content) base_dir)
  | ConfigEntry.cloneDirectory conf =>
    some (build links_allowed (ConfigEntry.cloneDirectory conf) base_dir)
  | _ => none

/-- The `start_point` resolution of `FsTester::new` (lines 434-443): the
empty string means the current location `.`; otherwise the start point
must already exist as a directory, else
`FsTesterError::should_start_from_directory()`. -/
def resolve_base_dir (fs : FsOracle) (start_point : String) : Except FsTesterError String :=
  if start_point.length = 0 then
    Except.ok "."
  else if fs.isDir start_point then
    Except.ok start_point
  else
    Except.error FsTesterError.should_start_from_directory

/-- `FsTester::new` (`src/rfs/fs_tester.rs` lines 426-501), with the
parser's outcome (`parse_config`), the filesystem queries and the build
phase passed in.  Faithful to the source order: resolve `LINKS_ALLOWED`,
parse (`?`), resolve `start_point` (empty means `.`; otherwise it must be
an existing directory), require exactly one root entry of kind
directory/clone-directory (else `should_start_from_directory`), run the
build, and on a build failure whose error carries a `sandbox_dir` run the
guarded cleanup of lines 483-495 (where the `?` on `std::fs::metadata`
and on `std::fs::remove_dir_all` replaces the build error with the
cleanup's `io::Error`).  The second component collects the filesystem
mutations performed. -/
def new_model (fs : FsOracle) (build : BuildFn) (parseRes : Except FsTesterError Configuration)
    (start_point : String) (links_env : Option String) :
    Except FsTesterError FsTester × List FsMutation :=
  let links_allowed := links_allowed_from_env links_env
  match parseRes with
  | Except.error e => (Except.error e, [])
  | Except.ok config =>
    match resolve_base_dir fs start_point with
    | Except.error e => (Except.error e, [])
    | Except.ok base_dir =>
      match config.entries with
      | [root_config_entry] =>
        match root_build build links_allowed root_config_entry base_dir with
        | none => (Except.error FsTesterError.should_start_from_directory, [])
        | some (result, muts) =>
          match result with
          | Except.error error =>
            match error.sandbox_dir with
            | some dst_dir_path =>
              match fs.metadataIsDir dst_dir_path with
              | Except.error k => (Except.error (FsTesterError.io_error k), muts)
              | Except.ok isdir =>
                if isdir && !(cmp_canonical_paths fs "/" dst_dir_path)
                    && !(cmp_canonical_paths fs "." dst_dir_path) then
                  match fs.removeDirAll dst_dir_path with
                  | Except.error k =>
                    (Except.error (FsTesterError.io_error k),
                      muts ++ [FsMutation.removeDirAll dst_dir_path])
                  | Except.ok _ =>
                    (Except.error error, muts ++ [FsMutation.removeDirAll dst_dir_path])
                else
                  (Except.error error, muts)
            | none => (Except.error error, muts)
          | Except.ok built => (Except.ok ⟨config, built⟩, muts)
      | _ => (Except.error FsTesterError.should_start_from_directory, [])

/-- What the `Drop` handler reports: the deletion succeeded, the deletion
failed and was printed to stderr, or the `/`/`.` guard fired and the
prevention message was printed.  (There is no panicking/erroring
outcome: `drop` is total into this type.) -/
inductive DropOutcome where
  | removed
  | removeFailedReported (err : Nat)
  | guardedReported
deriving DecidableEq

/-- `impl Drop for FsTester` (`src/rfs/fs_tester.rs` lines 549-568): if
neither `cmp_canonical_paths("/", base_dir)` nor
`cmp_canonical_paths(".", base_dir)` holds, attempt
`std::fs::remove_dir_all(base_dir)`, printing (not raising) on failure;
otherwise print the prevention message and touch nothing. -/
def drop_model (fs : FsOracle) (base_dir : String) : DropOutcome × List FsMutation :=
  if !(cmp_canonical_paths fs "/" base_dir) && !(cmp_canonical_paths fs "." base_dir) then
    match fs.removeDirAll base_dir with
    | Except.ok _ => (DropOutcome.removed, [FsMutation.removeDirAll base_dir])
    | Except.error e => (DropOutcome.removeFailedReported e, [FsMutation.removeDirAll base_dir])
  else
    (DropOutcome.guardedReported, [])

/-- A sample oracle for evaluating the model on concrete inputs: every
path is a directory and canonicalizes below a fixed working directory,
and every removal succeeds. -/
def fsSample : FsOracle where
  isDir := fun _ => true
  metadataIsDir := fun _ => Except.ok true
  canonicalize := fun p =>
    if p = "/" then some "/" else if p = "." then some "/cwd" else some ("/cwd/" ++ p)
  removeDirAll := fun _ => Except.ok ()

/-- A sample oracle for evaluating the model on concrete inputs: nothing
exists (no directories, metadata fails with os error 2, nothing
canonicalizes) and removal fails with os error 13. -/
def fsBare : FsOracle where
  isDir := fun _ => false
  metadataIsDir := fun _ => Except.error 2
  canonicalize := fun _ => none
  removeDirAll := fun _ => Except.error 13

/-- A concrete build error carrying a created-root path, as produced by a
level-0 build failure. -/
def errSb : FsTesterError := ⟨ErrorCode.ioErr 7, 0, 0, some "sb"⟩

/-- A concrete build phase that fails with `errSb` having performed no
mutation (as the clone path does when creating the destination itself
fails: `clone_directory` sets `sandbox_dir` at level 0 even then). -/
def buildFailSb : BuildFn := fun _ _ _ => (Except.error errSb, [])

/-- A concrete single-directory configuration. -/
def configOneDir : Configuration := ⟨[ConfigEntry.directory "dir" []]⟩

/-- A concrete configuration with two top-level entries. -/
def configTwoDirs : Configuration :=
  ⟨[ConfigEntry.directory "a" [], ConfigEntry.directory "b" []]⟩

/-- An oracle whose metadata query fails on every path (as for a
created-root path that does not actually exist on disk) while everything
else behaves like `fsSample`. -/
def fsMetaFails : FsOracle where
  isDir := fun _ => true
  metadataIsDir := fun _ => Except.error 2
  canonicalize := fun p =>
    if p = "/" then some "/" else if p = "." then some "/cwd" else some ("/cwd/" ++ p)
  removeDirAll := fun _ => Except.ok ()

/-! ## Helper lemmas -/

theorem resolve_base_dir_cases (fs : FsOracle) (sp : String) :
    (∃ base, resolve_base_dir fs sp = Except.ok base)
    ∨ resolve_base_dir fs sp = Except.error FsTesterError.should_start_from_directory := by
  by_cases h : sp.length = 0
  · exact Or.inl ⟨".", by simp [resolve_base_dir, h]⟩
  · by_cases h2 : fs.isDir sp
    · exact Or.inl ⟨sp, by simp [resolve_base_dir, h, h2]⟩
    · exact Or.inr (by simp [resolve_base_dir, h, h2])

theorem await_build_handles_all_ok (level : Nat) (dst : String) :
    ∀ rs : List (Except FsTesterError String),
      (∀ r ∈ rs, ∃ s, r = Except.ok s) →
      await_build_handles level dst rs = (Except.ok (), rs.length)
  | [], _ => rfl
  | r :: rest, h => by
    obtain ⟨s, hs⟩ := h r (List.mem_cons_self r rest)
    subst hs
    have ih := await_build_handles_all_ok level dst rest
      (fun x hx => h x (List.mem_cons_of_mem _ hx))
    simp [await_build_handles, ih]

theorem await_build_handles_first_error (level : Nat) (dst : String) (e : FsTesterError)
    (post : List (Except FsTesterError String)) :
    ∀ pre : List (Except FsTesterError String),
      (∀ r ∈ pre, ∃ s, r = Except.ok s) →
      await_build_handles level dst (pre ++ Except.error e :: post)
        = (Except.error (annotate_at_root level dst e), pre.length + 1)
  | [], _ => by simp [await_build_handles]
  | r :: pre, h => by
    obtain ⟨s, hs⟩ := h r (List.mem_cons_self r pre)
    subst hs
    have ih := await_build_handles_first_error level dst e post pre
      (fun x hx => h x (List.mem_cons_of_mem _ hx))
    simp [await_build_handles, ih]

theorem lookupFile_insert_self (fs : FsState) (p : String) (b : List Nat) :
    lookupFile (insertFile fs p b) p = some b := by
  simp [insertFile, lookupFile]

theorem lookupFile_insert_ne (fs : FsState) (p q : String) (b : List Nat) (h : q ≠ p) :
    lookupFile (insertFile fs p b) q = lookupFile fs q := by
  simp only [insertFile, lookupFile]
  rw [if_neg (Ne.symm h)]

/-! ## Claim theorems -/

/-- C5: `gen_dir_path` computes `parent_path/name` for `depth > 0` and
`parent_path/name_<random u64>` for `depth == 0`; at depth 0 the on-disk
name (and hence the whole destination path) is never exactly the
configured name. -/
theorem C5_depth_zero_suffix (p n : String) (level : Nat) (code : Nat) :
    (0 < level → gen_dir_path p n level code = pathJoin p n)
    ∧ (level = 0 →
        gen_dir_path p n level code = pathJoin p (n ++ "_" ++ toString code)
        ∧ n ++ "_" ++ toString code ≠ n
        ∧ gen_dir_path p n level code ≠ pathJoin p n) := by
  have hsep : ("_" : String).length = 1 := rfl
  have hslash : ("/" : String).length = 1 := rfl
  constructor
  · intro h
    have hne : level ≠ 0 := Nat.pos_iff_ne_zero.mp h
    simp [gen_dir_path, hne]
  · intro h
    subst h
    have hgen : gen_dir_path p n 0 code = pathJoin p (n ++ "_" ++ toString code) := by
      simp [gen_dir_path]
    have hne : n ++ "_" ++ toString code ≠ n := by
      intro hcontr
      have hlen := congrArg String.length hcontr
      rw [String.length_append, String.length_append, hsep] at hlen
      omega
    refine ⟨hgen, hne, ?_⟩
    intro hcontr
    rw [hgen] at hcontr
    have hlen := congrArg String.length hcontr
    simp only [pathJoin, String.length_append, hslash, hsep] at hlen
    omega

/-- C5 witness: the two depth cases at a concrete parent, name and drawn
code. -/
theorem C5_depth_zero_suffix_witness :
    gen_dir_path "base" "dir" 1 5 = pathJoin "base" "dir"
    ∧ gen_dir_path "base" "dir" 0 5 = pathJoin "base" ("dir" ++ "_" ++ toString 5)
    ∧ gen_dir_path "base" "dir" 0 5 ≠ pathJoin "base" "dir" := by
  have h1 := (C5_depth_zero_suffix "base" "dir" 1 5).1 (by decide)
  have h0 := (C5_depth_zero_suffix "base" "dir" 0 5).2 rfl
  exact ⟨h1, h0.1, h0.2.2⟩

/-- C10: `cmp_canonical_paths` is true on literally equal strings
regardless of the filesystem, false whenever the strings differ and
either side fails to canonicalize; hence the deletion guard's comparison
against the literal `/` and `.` succeeds on those very strings in every
filesystem state. -/
theorem C10_cmp_canonical_paths_spec (fs : FsOracle) (l r : String) :
    (l = r → cmp_canonical_paths fs l r = true)
    ∧ (l ≠ r → fs.canonicalize l = none → cmp_canonical_paths fs l r = false)
    ∧ (l ≠ r → fs.canonicalize r = none → cmp_canonical_paths fs l r = false)
    ∧ cmp_canonical_paths fs "/" "/" = true
    ∧ cmp_canonical_paths fs "." "." = true := by
  refine ⟨?_, ?_, ?_, ?_, ?_⟩
  · intro h
    simp [cmp_canonical_paths, h]
  · intro h hc
    simp [cmp_canonical_paths, beq_iff_eq, h, hc]
  · intro h hc
    cases hl : fs.canonicalize l <;>
      simp [cmp_canonical_paths, beq_iff_eq, h, hc, hl]
  · simp [cmp_canonical_paths]
  · simp [cmp_canonical_paths]

/-- C10 witness: concrete evaluations against the oracle in which nothing
canonicalizes. -/
theorem C10_cmp_canonical_paths_witness :
    cmp_canonical_paths fsBare "no_such_path" "no_such_path" = true
    ∧ cmp_canonical_paths fsBare "a" "b" = false
    ∧ cmp_canonical_paths fsBare "/" "/" = true
    ∧ cmp_canonical_paths fsBare "." "." = true := by
  have h := C10_cmp_canonical_paths_spec fsBare "a" "b"
  exact ⟨(C10_cmp_canonical_paths_spec fsBare "no_such_path" "no_such_path").1 rfl,
    h.2.1 (by decide) rfl, h.2.2.2.1, h.2.2.2.2⟩

/-- C4: the `Drop` handler never attempts deletion when `base_dir` equals
`/` or `.` literally or when the guard comparison against `/` or `.`
succeeds; when neither guard fires it attempts exactly the recursive
deletion of `base_dir`, and a failed deletion only yields the
non-escalating `removeFailedReported` outcome (the model's outcome type
has no panicking alternative). -/
theorem C4_drop_guard (fs : FsOracle) (base_dir : String) :
    ((base_dir = "/" ∨ base_dir = "." ∨ cmp_canonical_paths fs "/" base_dir = true
        ∨ cmp_canonical_paths fs "." base_dir = true) →
      drop_model fs base_dir = (DropOutcome.guardedReported, []))
    ∧ (cmp_canonical_paths fs "/" base_dir = false →
       cmp_canonical_paths fs "." base_dir = false →
        (drop_model fs base_dir).2 = [FsMutation.removeDirAll base_dir]
        ∧ (fs.removeDirAll base_dir = Except.ok () →
            (drop_model fs base_dir).1 = DropOutcome.removed)
        ∧ ∀ k, fs.removeDirAll base_dir = Except.error k →
            (drop_model fs base_dir).1 = DropOutcome.removeFailedReported k) := by
  constructor
  · intro h
    have hguard : cmp_canonical_paths fs "/" base_dir = true
        ∨ cmp_canonical_paths fs "." base_dir = true := by
      rcases h with h | h | h | h
      · exact Or.inl ((C10_cmp_canonical_paths_spec fs "/" base_dir).1 h.symm)
      · exact Or.inr ((C10_cmp_canonical_paths_spec fs "." base_dir).1 h.symm)
      · exact Or.inl h
      · exact Or.inr h
    rcases hguard with h | h <;> simp [drop_model, h]
  · intro h1 h2
    refine ⟨?_, ?_, ?_⟩
    · cases hrm : fs.removeDirAll base_dir <;> simp [drop_model, h1, h2, hrm]
    · intro hrm
      simp [drop_model, h1, h2, hrm]
    · intro k hrm
      simp [drop_model, h1, h2, hrm]

/-- C4 witness: against `fsBare`, a guarded base and an unguarded base
whose removal fails with os error 13 (only reported). -/
theorem C4_drop_guard_witness :
    drop_model fsBare "/" = (DropOutcome.guardedReported, [])
    ∧ (drop_model fsBare "x").2 = [FsMutation.removeDirAll "x"]
    ∧ (drop_model fsBare "x").1 = DropOutcome.removeFailedReported 13 := by
  have hx := (C4_drop_guard fsBare "x").2 (by decide) (by decide)
  exact ⟨(C4_drop_guard fsBare "/").1 (Or.inl rfl), hx.1, hx.2.2 13 rfl⟩

/-- C3: evaluation of the link gate at its failing input.  The source
computes `links_allowed` as `env_value != "N"` (with `"N"` as the default
for an absent variable), so any value other than `"N"` — not only the
documented enable literal `"Y"` — permits hard links: with
`LINKS_ALLOWED="X"` the gate is open and `create_link` creates the link
instead of failing with `not_allowed_settings`. -/
theorem C3_links_gate_eval :
    links_allowed_from_env (some "X") = true
    ∧ links_allowed_from_env none = false
    ∧ links_allowed_from_env (some "N") = false
    ∧ links_allowed_from_env (some "Y") = true
    ∧ create_link ⟨"cargo_link", "Cargo.toml"⟩ "d" ⟨links_allowed_from_env (some "X")⟩
        [("Cargo.toml", 1)]
      = Except.ok ([("d/cargo_link", 1), ("Cargo.toml", 1)], "d/cargo_link")
    ∧ create_link ⟨"cargo_link", "Cargo.toml"⟩ "d" ⟨links_allowed_from_env none⟩
        [("Cargo.toml", 1)]
      = Except.error FsTesterError.not_allowed_settings := by
  exact ⟨rfl, rfl, rfl, rfl, rfl, rfl⟩

/-- C7 counterexample: the dispatch looks at the first character, not the
first non-whitespace character: on `" ["` the first non-whitespace
character is `'['` yet the YAML parser is selected, while the rule as the
specification words it selects JSON. -/
theorem C7_first_char_cex :
    parse_config_choice " [" = ParserChoice.yaml
    ∧ (" [".data.dropWhile Char.isWhitespace).head? = some '['
    ∧ spec_parse_choice " [" = ParserChoice.json := by
  exact ⟨rfl, rfl, rfl⟩

/-- C7 (amended): `parse_config` dispatches on the first character of the
text without skipping whitespace — `{` or `[` select the JSON parser, any
other first character selects the YAML parser, and only the empty string
yields the empty-configuration error. -/
theorem C7_first_char_dispatch (s : String) :
    (s.data.head? = some '{' → parse_config_choice s = ParserChoice.json)
    ∧ (s.data.head? = some '[' → parse_config_choice s = ParserChoice.json)
    ∧ (∀ c, s.data.head? = some c → c ≠ '{' → c ≠ '[' →
        parse_config_choice s = ParserChoice.yaml)
    ∧ (s.data.head? = none → parse_config_choice s = ParserChoice.emptyConfigError)
    ∧ (s.data.head? = none → s = "") := by
  refine ⟨?_, ?_, ?_, ?_, ?_⟩
  · intro h
    simp [parse_config_choice, h]
  · intro h
    simp [parse_config_choice, h]
  · intro c h h1 h2
    simp only [parse_config_choice, h]
  · intro h
    simp [parse_config_choice, h]
  · intro h
    cases s with
    | mk data =>
      cases data with
      | nil => rfl
      | cons c rest => simp at h

/-- C7 witness: concrete dispatches of each kind. -/
theorem C7_first_char_dispatch_witness :
    parse_config_choice "[{}]" = ParserChoice.json
    ∧ parse_config_choice "---" = ParserChoice.yaml
    ∧ parse_config_choice "" = ParserChoice.emptyConfigError := by
  refine ⟨(C7_first_char_dispatch "[{}]").2.1 rfl,
    (C7_first_char_dispatch "---").2.2.1 '-' rfl (by decide) (by decide),
    (C7_first_char_dispatch "").2.2.2.1 rfl⟩

/-- C2: for every parsed configuration whose entry list is not a
singleton, or whose single element is a `File` or a `Link`,
`FsTester::new` returns `should_start_from_directory` — an error
classifying as `ConfigFormat` — having performed no filesystem
mutation. -/
theorem C2_root_validation (fs : FsOracle) (build : BuildFn) (config : Configuration)
    (start_point : String) (links_env : Option String)
    (hbad : config.entries.length ≠ 1
      ∨ (∃ c, config.entries = [ConfigEntry.file c])
      ∨ (∃ c, config.entries = [ConfigEntry.link c])) :
    new_model fs build (Except.ok config) start_point links_env
      = (Except.error FsTesterError.should_start_from_directory, [])
    ∧ FsTesterError.classify FsTesterError.should_start_from_directory
        = Category.configFormat := by
  refine ⟨?_, rfl⟩
  rcases resolve_base_dir_cases fs start_point with ⟨base, hb⟩ | hb
  · rcases hbad with hlen | ⟨c, hc⟩ | ⟨c, hc⟩
    · rcases hent : config.entries with _ | ⟨a, _ | ⟨b2, rest⟩⟩
      · simp [new_model, hb, hent]
      · exact absurd (by rw [hent]; rfl) hlen
      · simp [new_model, hb, hent]
    · simp [new_model, hb, hc, root_build]
    · simp [new_model, hb, hc, root_build]
  · simp [new_model, hb]

/-- C2 witness: a configuration with two top-level entries. -/
theorem C2_root_validation_witness :
    new_model fsSample buildFailSb (Except.ok configTwoDirs) "." none
      = (Except.error FsTesterError.should_start_from_directory, [])
    ∧ FsTesterError.classify FsTesterError.should_start_from_directory
        = Category.configFormat :=
  C2_root_validation fsSample buildFailSb configTwoDirs "." none (Or.inl (by decide))

/-- C9: a non-empty `start_point` that is not an existing directory makes
`FsTester::new` fail, before any filesystem mutation, with the same
`should_start_from_directory` error used for a malformed root entry,
whose category is `ConfigFormat` and not `Io`. -/
theorem C9_bad_start_point (fs : FsOracle) (build : BuildFn) (config : Configuration)
    (start_point : String) (links_env : Option String)
    (hne : start_point.length ≠ 0) (hnotdir : fs.isDir start_point = false) :
    new_model fs build (Except.ok config) start_point links_env
      = (Except.error FsTesterError.should_start_from_directory, [])
    ∧ FsTesterError.classify FsTesterError.should_start_from_directory
        = Category.configFormat
    ∧ FsTesterError.classify FsTesterError.should_start_from_directory
        ≠ Category.ioCat := by
  refine ⟨?_, rfl, by decide⟩
  simp [new_model, resolve_base_dir, hne, hnotdir]

/-- C9 witness: the start point `unexisting_directory` against the oracle
in which nothing exists. -/
theorem C9_bad_start_point_witness :
    new_model fsBare buildFailSb (Except.ok configOneDir) "unexisting_directory" none
      = (Except.error FsTesterError.should_start_from_directory, [])
    ∧ FsTesterError.classify FsTesterError.should_start_from_directory
        = Category.configFormat
    ∧ FsTesterError.classify FsTesterError.should_start_from_directory
        ≠ Category.ioCat :=
  C9_bad_start_point fsBare buildFailSb configOneDir "unexisting_directory" none
    (by decide) rfl

/-- C1 counterexample: a build failure carrying a created-root path whose
metadata query fails (as happens when `clone_directory` annotated the
error even though the destination was never created): `new` neither
deletes the path nor propagates the original error — it returns the
cleanup's own `io::Error` instead. -/
theorem C1_cleanup_error_shadows_cex :
    (new_model fsMetaFails buildFailSb (Except.ok configOneDir) "." none).1
      = Except.error (FsTesterError.io_error 2)
    ∧ FsTesterError.io_error 2 ≠ errSb
    ∧ FsMutation.removeDirAll "sb"
        ∉ (new_model fsMetaFails buildFailSb (Except.ok configOneDir) "." none).2 := by
  refine ⟨rfl, by decide, by decide⟩

/-- C1 (amended): on a root-build failure whose error carries a
created-root path, `new` deletes the path recursively and propagates the
original error provided the metadata query reports an existing directory,
neither guard comparison against `/` or `.` succeeds, and the deletion
itself succeeds; when a guard fires or the path is not a directory the
path is left in place and the original error is returned; when the
metadata query or the deletion fails, that cleanup `io::Error` replaces
the original error. -/
theorem C1_root_failure_cleanup (fs : FsOracle) (build : BuildFn) (config : Configuration)
    (root : ConfigEntry) (start_point : String) (links_env : Option String)
    (e : FsTesterError) (muts : List FsMutation) (dst : String) (base : String)
    (hroot : config.entries = [root])
    (hbase : resolve_base_dir fs start_point = Except.ok base)
    (hrb : root_build build (links_allowed_from_env links_env) root base
      = some (Except.error e, muts))
    (hsd : e.sandbox_dir = some dst) :
    (∀ k, fs.metadataIsDir dst = Except.error k →
      new_model fs build (Except.ok config) start_point links_env
        = (Except.error (FsTesterError.io_error k), muts))
    ∧ (fs.metadataIsDir dst = Except.ok true →
        cmp_canonical_paths fs "/" dst = false →
        cmp_canonical_paths fs "." dst = false →
        (fs.removeDirAll dst = Except.ok () →
          new_model fs build (Except.ok config) start_point links_env
            = (Except.error e, muts ++ [FsMutation.removeDirAll dst]))
        ∧ ∀ k, fs.removeDirAll dst = Except.error k →
          new_model fs build (Except.ok config) start_point links_env
            = (Except.error (FsTesterError.io_error k),
                muts ++ [FsMutation.removeDirAll dst]))
    ∧ (fs.metadataIsDir dst = Except.ok true →
        (cmp_canonical_paths fs "/" dst = true ∨ cmp_canonical_paths fs "." dst = true) →
        new_model fs build (Except.ok config) start_point links_env
          = (Except.error e, muts))
    ∧ (fs.metadataIsDir dst = Except.ok false →
        new_model fs build (Except.ok config) start_point links_env
          = (Except.error e, muts)) := by
  refine ⟨?_, ?_, ?_, ?_⟩
  · intro k hk
    simp [new_model, hroot, hbase, hrb, hsd, hk]
  · intro hmeta hg1 hg2
    constructor
    · intro hrm
      simp [new_model, hroot, hbase, hrb, hsd, hmeta, hg1, hg2, hrm]
    · intro k hrm
      simp [new_model, hroot, hbase, hrb, hsd, hmeta, hg1, hg2, hrm]
  · intro hmeta hg
    rcases hg with hg | hg <;>
      simp [new_model, hroot, hbase, hrb, hsd, hmeta, hg]
  · intro hmeta
    simp [new_model, hroot, hbase, hrb, hsd, hmeta]

/-- C1 witness: the success branch of the cleanup — the created root `sb`
is an existing directory, no guard fires, deletion succeeds, the original
error is propagated. -/
theorem C1_root_failure_cleanup_witness :
    new_model fsSample buildFailSb (Except.ok configOneDir) "base" none
      = (Except.error errSb, [FsMutation.removeDirAll "sb"]) := by
  have h := C1_root_failure_cleanup fsSample buildFailSb configOneDir
    (ConfigEntry.directory "dir" []) "base" none errSb [] "sb" "base"
    rfl rfl rfl rfl
  exact (h.2.1 rfl (by decide) (by decide)).1 rfl

/-- C6: `create_file` always materializes exactly one file at
`dir_path/name` — all other paths keep their prior contents — and the
resulting bytes are: the data verbatim for `InlineBytes`; the UTF-8
encoding of the text (no trailing newline added) for `InlineText`; the
referenced file's bytes for `OriginalFile` (reading after the destination
was created, and failing with the `NotFound` `io::Error` when the source
is missing — the truncated destination being left behind); and the empty
byte sequence for `Empty`. -/
theorem C6_create_file_contents (name dir : String) (fs : FsState) :
    (∀ data fsOut p,
        create_file ⟨name, FileContent.inlineBytes data⟩ dir fs = Except.ok (fsOut, p) →
        p = pathJoin dir name ∧ lookupFile fsOut p = some data
        ∧ ∀ q, q ≠ p → lookupFile fsOut q = lookupFile fs q)
    ∧ (∀ text fsOut p,
        create_file ⟨name, FileContent.inlineText text⟩ dir fs = Except.ok (fsOut, p) →
        p = pathJoin dir name ∧ lookupFile fsOut p = some (utf8Bytes text)
        ∧ ∀ q, q ≠ p → lookupFile fsOut q = lookupFile fs q)
    ∧ (∀ fp fsOut p,
        create_file ⟨name, FileContent.originalFile fp⟩ dir fs = Except.ok (fsOut, p) →
        p = pathJoin dir name
        ∧ lookupFile fsOut p = lookupFile (insertFile fs (pathJoin dir name) []) fp
        ∧ ∀ q, q ≠ p → lookupFile fsOut q = lookupFile fs q)
    ∧ (∀ fp, lookupFile (insertFile fs (pathJoin dir name) []) fp = none →
        create_file ⟨name, FileContent.originalFile fp⟩ dir fs = Except.error 2)
    ∧ (∀ fsOut p,
        create_file ⟨name, FileContent.empty⟩ dir fs = Except.ok (fsOut, p) →
        p = pathJoin dir name ∧ lookupFile fsOut p = some []
        ∧ ∀ q, q ≠ p → lookupFile fsOut q = lookupFile fs q) := by
  refine ⟨?_, ?_, ?_, ?_, ?_⟩
  · intro data fsOut p h
    simp only [create_file, Except.ok.injEq, Prod.mk.injEq] at h
    obtain ⟨h1, h2⟩ := h
    subst h1; subst h2
    refine ⟨rfl, lookupFile_insert_self _ _ _, ?_⟩
    intro q hq
    rw [lookupFile_insert_ne _ _ _ _ hq, lookupFile_insert_ne _ _ _ _ hq]
  · intro text fsOut p h
    simp only [create_file, Except.ok.injEq, Prod.mk.injEq] at h
    obtain ⟨h1, h2⟩ := h
    subst h1; subst h2
    refine ⟨rfl, lookupFile_insert_self _ _ _, ?_⟩
    intro q hq
    rw [lookupFile_insert_ne _ _ _ _ hq, lookupFile_insert_ne _ _ _ _ hq]
  · intro fp fsOut p h
    simp only [create_file] at h
    cases hl : lookupFile (insertFile fs (pathJoin dir name) []) fp with
    | none => rw [hl] at h; simp at h
    | some bytes =>
      rw [hl] at h
      simp only [Except.ok.injEq, Prod.mk.injEq] at h
      obtain ⟨h1, h2⟩ := h
      subst h1; subst h2
      refine ⟨rfl, ?_, ?_⟩
      · exact lookupFile_insert_self _ _ _
      · intro q hq
        rw [lookupFile_insert_ne _ _ _ _ hq, lookupFile_insert_ne _ _ _ _ hq]
  · intro fp hl
    simp [create_file, hl]
  · intro fsOut p h
    simp only [create_file, Except.ok.injEq, Prod.mk.injEq] at h
    obtain ⟨h1, h2⟩ := h
    subst h1; subst h2
    refine ⟨rfl, lookupFile_insert_self _ _ _, ?_⟩
    intro q hq
    rw [lookupFile_insert_ne _ _ _ _ hq]

/-- C6 witness: the `InlineText` case on `"Hello, world!"` from the empty
state. -/
theorem C6_create_file_contents_witness :
    lookupFile
        [(pathJoin "d" "test.txt", utf8Bytes "Hello, world!"), (pathJoin "d" "test.txt", [])]
        (pathJoin "d" "test.txt")
      = some (utf8Bytes "Hello, world!")
    ∧ lookupFile
        [(pathJoin "d" "test.txt", utf8Bytes "Hello, world!"), (pathJoin "d" "test.txt", [])]
        "q"
      = lookupFile ([] : FsState) "q" := by
  have h := (C6_create_file_contents "test.txt" "d" []).2.1 "Hello, world!"
    [(pathJoin "d" "test.txt", utf8Bytes "Hello, world!"), (pathJoin "d" "test.txt", [])]
    (pathJoin "d" "test.txt") rfl
  exact ⟨h.2.1, h.2.2 "q" (by decide)⟩

/-- C8 counterexample: the builder does not wait for all child units —
with two handles whose first fails, the await loop stops after one handle
(`?` short-circuits), leaving the second un-awaited. -/
theorem C8_not_all_awaited_cex :
    (await_build_handles 1 "d"
        [Except.error FsTesterError.not_allowed_settings, Except.ok "a"]).2 = 1
    ∧ ([Except.error FsTesterError.not_allowed_settings,
         Except.ok "a"] : List (Except FsTesterError String)).length = 2
    ∧ (1 : Nat) ≠ 2 := by
  exact ⟨rfl, rfl, by decide⟩

/-- C8 (amended): all child units of a directory are spawned (one per
child entry) before any is awaited; the builder then awaits the handles
in spawn order, awaiting all of them when every unit succeeds, and on the
first failure it reports exactly that error (annotated with the root path
at depth 0) after having awaited only the handles up to and including the
failing one — later units are neither awaited nor cancelled by the
builder, and no error beyond the first is surfaced. -/
theorem C8_first_failure_await (level : Nat) (dst : String)
    (content : List ConfigEntry) (rs : List (Except FsTesterError String)) :
    (spawn_child_units content level).length = content.length
    ∧ ((∀ r ∈ rs, ∃ s, r = Except.ok s) →
        await_build_handles level dst rs = (Except.ok (), rs.length))
    ∧ (∀ pre e post, rs = pre ++ Except.error e :: post →
        (∀ r ∈ pre, ∃ s, r = Except.ok s) →
        await_build_handles level dst rs
          = (Except.error (annotate_at_root level dst e), pre.length + 1)) := by
  refine ⟨by simp [spawn_child_units], await_build_handles_all_ok level dst rs, ?_⟩
  intro pre e post hrs hpre
  rw [hrs]
  exact await_build_handles_first_error level dst e post pre hpre

/-- C8 witness: three handles with a failure in the middle (two awaited,
annotated at depth 0), one all-success handle list, and the spawn count
of a one-child directory. -/
theorem C8_first_failure_await_witness :
    await_build_handles 0 "root"
        [Except.ok "a", Except.error FsTesterError.not_allowed_settings, Except.ok "b"]
      = (Except.error (annotate_at_root 0 "root" FsTesterError.not_allowed_settings), 2)
    ∧ await_build_handles 1 "d" [Except.ok "a"] = (Except.ok (), 1)
    ∧ (spawn_child_units [ConfigEntry.file ⟨"f", FileContent.empty⟩] 0).length = 1 := by
  have h := C8_first_failure_await 0 "root" [ConfigEntry.file ⟨"f", FileContent.empty⟩]
    [Except.ok "a", Except.error FsTesterError.not_allowed_settings, Except.ok "b"]
  have h2 := C8_first_failure_await 1 "d" ([] : List ConfigEntry) [Except.ok "a"]
  refine ⟨?_, ?_, h.1⟩
  · exact h.2.2 [Except.ok "a"] FsTesterError.not_allowed_settings [Except.ok "b"] rfl
      (by intro r hr; simp at hr; exact ⟨"a", hr⟩)
  · exact h2.2.1 (by intro r hr; simp at hr; exact ⟨"a", hr⟩)

end RfsTester
